import Mathlib

/-!
Verification of `scripts/analyze_data.py`: a linear pipeline that generates a
seeded synthetic customer dataset, writes it to CSV, computes a correlation
matrix, and writes a two-sample t-test report.

Numeric values produced by numpy are embedded as exact rationals (`ℚ`); the
pseudo-random draws behind `np.random.normal` / `np.random.choice` are
represented by an explicit stream `ℕ → ℚ` consumed column by column in the
order the script consumes the global RNG, so that every structural property of
the generation (clipping bounds, adjustment order, determinism in the seed) is
stated over all possible draw values.  Library routines the script calls
(`np.clip`, `pandas.DataFrame.corr`, `scipy.stats.ttest_ind`) are embedded
from their documented formulas; the square root inside the Pearson
correlation is `Real.sqrt`, and the t-distribution survival function behind
the p-value, as well as Python's fixed-precision float rendering, are
abstract function parameters.
-/

set_option autoImplicit false

namespace AnalyzeData

/-- Embeds `np.clip(x, lo, hi)`, documented as `np.minimum(a_max, np.maximum(a, a_min))`. -/
def npClip (x lo hi : ℚ) : ℚ := min hi (max x lo)

/-- A draw of `np.random.normal(mu, sigma)`: the location-scale transform of a
standard-normal variate `z` supplied by the random stream. -/
def normalDraw (mu sigma z : ℚ) : ℚ := mu + sigma * z

/-- The category list passed to `np.random.choice` for the `region` column. -/
def regions : List String := ["North", "South", "East", "West"]

/-- A draw of `np.random.choice(['North','South','East','West'])`: the stream
value selects one of the four categories. -/
def regionChoice (v : ℚ) : String := regions.getD (Int.toNat ⌊v⌋ % 4) "North"

/-- A draw of `np.random.choice([0, 1], p=[0.7, 0.3])`: the stream value is a
uniform variate compared against the cumulative probability 0.7. -/
def premiumChoice (v : ℚ) : ℕ := if v < 7/10 then 0 else 1

/-- One row of the `data` DataFrame built at the top of the script. -/
structure Row where
  customer_id : ℕ
  age : ℚ
  income : ℚ
  spending_score : ℚ
  region : String
  is_premium : ℕ
deriving DecidableEq, Repr, Inhabited

/-- Row `i` of the DataFrame literal (before the two correlation adjustments):
`customer_id = range(1, n+1)`, `age`, `income`, `spending_score` are clipped
normal draws, `region` and `is_premium` are choice draws.  The five random
columns consume the stream in construction order, `n` values each. -/
def baseRow (stream : ℕ → ℚ) (n i : ℕ) : Row :=
  { customer_id := i + 1
    age := npClip (normalDraw 35 10 (stream i)) 18 70
    income := npClip (normalDraw 50000 15000 (stream (n + i))) 20000 150000
    spending_score := npClip (normalDraw 50 20 (stream (2 * n + i))) 1 100
    region := regionChoice (stream (3 * n + i))
    is_premium := premiumChoice (stream (4 * n + i)) }

/-- The statement `data['income'] = data['income'] + data['age'] * 800`. -/
def addIncomeRelation (r : Row) : Row := { r with income := r.income + r.age * 800 }

/-- The statement `data['spending_score'] = data['spending_score'] + data['income'] / 5000`,
run after the income update, so it reads the already-adjusted income. -/
def addSpendingRelation (r : Row) : Row :=
  { r with spending_score := r.spending_score + r.income / 5000 }

/-- The dataset after the two vectorized adjustment statements. -/
def makeData (stream : ℕ → ℚ) (n : ℕ) : List Row :=
  (((List.range n).map (baseRow stream n)).map addIncomeRelation).map addSpendingRelation

/-- Modelled from the spec: `np.random.seed(42)` plus numpy's global Mersenne
Twister, which the repository does not contain, is represented by a concrete
deterministic stream of variates derived from the seed (a linear congruential
step); the only property used is that the stream is a function of the seed. -/
def lcgStep (s : ℕ) : ℕ := (1664525 * s + 1013904223) % 4294967296

/-- The stream of variates produced after seeding the global RNG with `seed`. -/
def npSeedStream (seed : ℕ) (k : ℕ) : ℚ := ((lcgStep^[k + 1] seed : ℕ) : ℚ) / 4294967296

/-- The sample count `n_samples = 1000`. -/
def n_samples : ℕ := 1000

/-- The in-memory dataset of the script: seed 42, 1000 samples. -/
def data : List Row := makeData (npSeedStream 42) n_samples

/-- The fully-adjusted row `i`: composition of the DataFrame construction and
the two adjustment statements. -/
def finalRow (stream : ℕ → ℚ) (n i : ℕ) : Row :=
  addSpendingRelation (addIncomeRelation (baseRow stream n i))

/-- An all-zero variate stream, used to instantiate universally quantified
statements at a concrete input. -/
def zeroStream : ℕ → ℚ := fun _ => 0

/-- A stream of very large variates: every clipped draw hits its upper bound. -/
def bigStream : ℕ → ℚ := fun _ => 1000000

/-- Pandas dtypes of the six columns, as fixed by the DataFrame constructor:
`range` gives int64, `np.random.normal(...).clip(...)` gives float64,
`np.random.choice` over strings gives object, and over `[0, 1]` gives int64. -/
inductive Dtype
  | int64
  | float64
  | object
deriving DecidableEq, Repr

/-- The schema of `data`, in column order. -/
def columnDtypes : List (String × Dtype) :=
  [("customer_id", Dtype.int64), ("age", Dtype.float64), ("income", Dtype.float64),
   ("spending_score", Dtype.float64), ("region", Dtype.object), ("is_premium", Dtype.int64)]

/-- The dtype filter of `data.select_dtypes(include=[np.number])`. -/
def isNumericDtype : Dtype → Bool
  | Dtype.object => false
  | _ => true

/-- Names of the numeric columns, as selected by `select_dtypes`. -/
def numericColumnNames : List String :=
  (columnDtypes.filter (fun c => isNumericDtype c.2)).map Prod.fst

/-- Columns described by `data.describe()`: on a mixed-dtype frame pandas
restricts the descriptive statistics to the numeric columns. -/
def describeColumns : List String := numericColumnNames

/-- The header line `data.to_csv` writes for this frame with `index=False`. -/
def csvHeader : String := "customer_id,age,income,spending_score,region,is_premium"

/-- The cells of one CSV data line: exactly the six column values in schema
order, with no leading index cell (`index=False`).  `rQ` is the float
rendering used by pandas for the three float64 columns. -/
def rowCells (rQ : ℚ → String) (r : Row) : List String :=
  [toString r.customer_id, rQ r.age, rQ r.income, rQ r.spending_score,
   r.region, toString r.is_premium]

/-- One CSV data line: the cells joined by commas. -/
def rowToCsv (rQ : ℚ → String) (r : Row) : String :=
  String.intercalate "," (rowCells rQ r)

/-- The full file `data/raw_customer_data.csv` as a list of lines: the header
followed by one line per row. -/
def toCsvLines (rQ : ℚ → String) (rows : List Row) : List String :=
  csvHeader :: rows.map (rowToCsv rQ)

/-- Comma splitting of a line, by structural recursion over its characters. -/
def splitCommaAux : List Char → List Char → List String
  | [], acc => [String.mk acc.reverse]
  | c :: cs, acc =>
      if c = ',' then String.mk acc.reverse :: splitCommaAux cs []
      else splitCommaAux cs (c :: acc)

/-- Parse one CSV line into its comma-separated cells. -/
def parseCsvLine (s : String) : List String := splitCommaAux s.data []

/-- Parse a CSV file (a list of lines) back into a header and data rows. -/
def parseCsv (lines : List String) : List String × List (List String) :=
  match lines with
  | [] => ([], [])
  | h :: t => (parseCsvLine h, t.map parseCsvLine)

/-- A float-valued statistic: either NaN or an exact rational value. -/
inductive RVal
  | nan
  | val (q : ℚ)
deriving DecidableEq, Repr

/-- Python float formatting applied to a statistic: `f"{nan:.kf}"` renders as
`"nan"`, otherwise the supplied fixed-precision rendering is used. -/
def fmtR (fmt : ℚ → String) : RVal → String
  | RVal.nan => "nan"
  | RVal.val q => fmt q

/-- Arithmetic mean. -/
def meanQ (xs : List ℚ) : ℚ := xs.sum / (xs.length : ℚ)

/-- Embeds `pandas.Series.mean`: NaN on an empty series. -/
def meanR (xs : List ℚ) : RVal :=
  if xs.length = 0 then RVal.nan else RVal.val (meanQ xs)

/-- Sample variance with `ddof=1`, as used by `scipy.stats.ttest_ind`. -/
def varQ (xs : List ℚ) : ℚ :=
  (xs.map (fun x => (x - meanQ xs) * (x - meanQ xs))).sum / ((xs.length : ℚ) - 1)

/-- Sample covariance with `ddof=1`, the entry of `DataFrame.cov`. -/
def covQ (xs ys : List ℚ) : ℚ :=
  ((xs.zip ys).map (fun p => (p.1 - meanQ xs) * (p.2 - meanQ ys))).sum /
    ((xs.length : ℚ) - 1)

/-- The pooled variance of the equal-variance two-sample t-test. -/
def pooledVar (xs ys : List ℚ) : ℚ :=
  (((xs.length : ℚ) - 1) * varQ xs + ((ys.length : ℚ) - 1) * varQ ys) /
    ((xs.length : ℚ) + (ys.length : ℚ) - 2)

/-- The t-statistic of `scipy.stats.ttest_ind` with its default
`equal_var=True`; `sqrtQ` stands for the floating-point square root. -/
def tStat (sqrtQ : ℚ → ℚ) (xs ys : List ℚ) : ℚ :=
  (meanQ xs - meanQ ys) /
    sqrtQ (pooledVar xs ys * (1 / (xs.length : ℚ) + 1 / (ys.length : ℚ)))

/-- Embeds `scipy.stats.ttest_ind(xs, ys)` (default `equal_var=True`): both results
are NaN when either group has fewer than two elements (the `ddof=1` variances
are then undefined, and with the script's `warnings.filterwarnings('ignore')`
this happens silently); otherwise the t-statistic follows the pooled-variance
formula and the p-value is the t-distribution tail function `sf` applied to
it at `n1 + n2 - 2` degrees of freedom. -/
def ttest_ind (sqrtQ : ℚ → ℚ) (sf : ℚ → ℕ → ℚ) (xs ys : List ℚ) : RVal × RVal :=
  if xs.length ≤ 1 ∨ ys.length ≤ 1 then (RVal.nan, RVal.nan)
  else (RVal.val (tStat sqrtQ xs ys),
        RVal.val (sf (tStat sqrtQ xs ys) (xs.length + ys.length - 2)))

/-- The premium group `data[data['is_premium'] == 1]['spending_score']`. -/
def premiumScores (rows : List Row) : List ℚ :=
  (rows.filter (fun r => r.is_premium == 1)).map Row.spending_score

/-- The non-premium group `data[data['is_premium'] == 0]['spending_score']`. -/
def nonPremiumScores (rows : List Row) : List ℚ :=
  (rows.filter (fun r => r.is_premium == 0)).map Row.spending_score

/-- The line `'YES' if p_value < 0.05 else 'NO'`; a NaN p-value compares false. -/
def verdict : RVal → String
  | RVal.nan => "NO"
  | RVal.val p => if p < 1/20 then "YES" else "NO"

/-- The content of `results/statistical_analysis.txt` as a list of lines.
The script has no guard and no raise of its own, so the only constructor the
embedding ever uses is `Except.ok`; an explicit empty-group error, as the
specification requires, would be an `Except.error`. -/
def statistical_analysis (sqrtQ : ℚ → ℚ) (sf : ℚ → ℕ → ℚ)
    (fmt2 fmt4 fmt6 : ℚ → String) (rows : List Row) : Except String (List String) :=
  Except.ok
    ["Statistical Analysis Results",
     "========================================",
     "",
     "Premium customers: " ++ toString (premiumScores rows).length,
     "Non-premium customers: " ++ toString (nonPremiumScores rows).length,
     "",
     "Mean spending (premium): $" ++ fmtR fmt2 (meanR (premiumScores rows)),
     "Mean spending (non-premium): $" ++ fmtR fmt2 (meanR (nonPremiumScores rows)),
     "",
     "T-test results:",
     "  t-statistic: " ++ fmtR fmt4 (ttest_ind sqrtQ sf (premiumScores rows) (nonPremiumScores rows)).1,
     "  p-value: " ++ fmtR fmt6 (ttest_ind sqrtQ sf (premiumScores rows) (nonPremiumScores rows)).2,
     "  Significant at p < 0.05: " ++ verdict (ttest_ind sqrtQ sf (premiumScores rows) (nonPremiumScores rows)).2]

/-- The five numeric columns of the frame, in schema order, as rational
series; `customer_id` and `is_premium` are integer columns cast to numbers. -/
def numericCols (rows : List Row) : List (List ℚ) :=
  [rows.map (fun r => (r.customer_id : ℚ)),
   rows.map Row.age,
   rows.map Row.income,
   rows.map Row.spending_score,
   rows.map (fun r => (r.is_premium : ℚ))]

/-- Pearson correlation of two series, `cov / (sigma_x * sigma_y)`. -/
noncomputable def pearson (xs ys : List ℚ) : ℝ :=
  (covQ xs ys : ℝ) / (Real.sqrt (varQ xs) * Real.sqrt (varQ ys))

/-- Entry `(i, j)` of `numeric_data.corr()`, the heatmap matrix. -/
noncomputable def corr_matrix (rows : List Row) (i j : ℕ) : ℝ :=
  pearson ((numericCols rows).getD i []) ((numericCols rows).getD j [])

/-- A three-row dataset used to instantiate the correlation theorem. -/
def rows3 : List Row :=
  [⟨1, 30, 100000, 50, "North", 0⟩,
   ⟨2, 40, 90000, 60, "South", 1⟩,
   ⟨3, 50, 80000, 70, "East", 0⟩]

/-- A four-row dataset with two premium and two non-premium customers. -/
def rows4 : List Row :=
  [⟨1, 25, 50000, 10, "North", 1⟩,
   ⟨2, 30, 60000, 20, "South", 1⟩,
   ⟨3, 35, 70000, 30, "East", 0⟩,
   ⟨4, 40, 80000, 40, "West", 0⟩]

/-- A single non-premium row: the premium group of `[rowNP]` is empty. -/
def rowNP : Row := ⟨1, 30, 100000, 50, "North", 0⟩

lemma makeData_eq_map (stream : ℕ → ℚ) (n : ℕ) :
    makeData stream n = (List.range n).map (finalRow stream n) := by
  simp [makeData, finalRow, List.map_map, Function.comp]

lemma makeData_length (stream : ℕ → ℚ) (n : ℕ) : (makeData stream n).length = n := by
  simp [makeData_eq_map]

lemma makeData_getD (stream : ℕ → ℚ) (n i : ℕ) (h : i < n) :
    (makeData stream n).getD i default = finalRow stream n i := by
  rw [makeData_eq_map]
  rw [List.getD_eq_getElem?_getD, List.getElem?_map, List.getElem?_range h]
  rfl

lemma finalRow_customer_id (stream : ℕ → ℚ) (n i : ℕ) :
    (finalRow stream n i).customer_id = i + 1 := rfl

lemma finalRow_age (stream : ℕ → ℚ) (n i : ℕ) :
    (finalRow stream n i).age = npClip (normalDraw 35 10 (stream i)) 18 70 := rfl

lemma finalRow_income (stream : ℕ → ℚ) (n i : ℕ) :
    (finalRow stream n i).income =
      npClip (normalDraw 50000 15000 (stream (n + i))) 20000 150000 +
        (finalRow stream n i).age * 800 := rfl

lemma finalRow_spending (stream : ℕ → ℚ) (n i : ℕ) :
    (finalRow stream n i).spending_score =
      npClip (normalDraw 50 20 (stream (2 * n + i))) 1 100 +
        (finalRow stream n i).income / 5000 := rfl

lemma npClip_le (x lo hi : ℚ) : npClip x lo hi ≤ hi := min_le_left _ _

lemma le_npClip (x lo hi : ℚ) (h : lo ≤ hi) : lo ≤ npClip x lo hi :=
  le_min h (le_max_right _ _)

/-- C1: for a fixed seed (42) and sample count (1000), the data-generation
stage is deterministic: two runs seeded identically produce identical values
in every one of the six columns. -/
theorem c1_generation_deterministic (s s' : ℕ) (h : s = s') :
    (makeData (npSeedStream s) n_samples).map Row.customer_id =
      (makeData (npSeedStream s') n_samples).map Row.customer_id ∧
    (makeData (npSeedStream s) n_samples).map Row.age =
      (makeData (npSeedStream s') n_samples).map Row.age ∧
    (makeData (npSeedStream s) n_samples).map Row.income =
      (makeData (npSeedStream s') n_samples).map Row.income ∧
    (makeData (npSeedStream s) n_samples).map Row.spending_score =
      (makeData (npSeedStream s') n_samples).map Row.spending_score ∧
    (makeData (npSeedStream s) n_samples).map Row.region =
      (makeData (npSeedStream s') n_samples).map Row.region ∧
    (makeData (npSeedStream s) n_samples).map Row.is_premium =
      (makeData (npSeedStream s') n_samples).map Row.is_premium := by
  subst h
  exact ⟨rfl, rfl, rfl, rfl, rfl, rfl⟩

theorem c1_witness :
    42 = 42 ∧
    (makeData (npSeedStream 42) n_samples).map Row.age =
      (makeData (npSeedStream 42) n_samples).map Row.age :=
  ⟨rfl, (c1_generation_deterministic 42 42 rfl).2.1⟩

/-- C2: every row's derived fields follow the order draw → clip → adjust:
final income is the clipped base draw plus `age * 800`, and final
spending_score is the clipped base draw plus the already-adjusted income
divided by 5000; no re-clipping happens after the adjustments. -/
theorem c2_draw_clip_adjust (stream : ℕ → ℚ) (n i : ℕ) (h : i < n) :
    ((makeData stream n).getD i default).income =
      npClip (normalDraw 50000 15000 (stream (n + i))) 20000 150000 +
        ((makeData stream n).getD i default).age * 800 ∧
    ((makeData stream n).getD i default).spending_score =
      npClip (normalDraw 50 20 (stream (2 * n + i))) 1 100 +
        ((makeData stream n).getD i default).income / 5000 := by
  rw [makeData_getD stream n i h]
  exact ⟨finalRow_income stream n i, finalRow_spending stream n i⟩

theorem c2_witness :
    0 < 1 ∧
    ((makeData zeroStream 1).getD 0 default).income =
      npClip (normalDraw 50000 15000 (zeroStream (1 + 0))) 20000 150000 +
        ((makeData zeroStream 1).getD 0 default).age * 800 :=
  ⟨Nat.one_pos, (c2_draw_clip_adjust zeroStream 1 0 Nat.one_pos).1⟩

/-- C4: every row's age lies in [18, 70] (the age column is never adjusted
after clipping), the spending_score base draw lies in [1, 100] after clipping
and before the income-based increment, and the final spending_score can
exceed 100 after that increment. -/
theorem c4_age_spending_bounds (stream : ℕ → ℚ) (n i : ℕ) (h : i < n) :
    (18 ≤ ((makeData stream n).getD i default).age ∧
      ((makeData stream n).getD i default).age ≤ 70) ∧
    (1 ≤ npClip (normalDraw 50 20 (stream (2 * n + i))) 1 100 ∧
      npClip (normalDraw 50 20 (stream (2 * n + i))) 1 100 ≤ 100) ∧
    ((makeData stream n).getD i default).spending_score =
      npClip (normalDraw 50 20 (stream (2 * n + i))) 1 100 +
        ((makeData stream n).getD i default).income / 5000 ∧
    (∃ stream' : ℕ → ℚ, ∃ n' i' : ℕ, i' < n' ∧
      100 < ((makeData stream' n').getD i' default).spending_score) := by
  rw [makeData_getD stream n i h]
  refine ⟨⟨le_npClip _ _ _ (by norm_num), npClip_le _ _ _⟩,
    ⟨le_npClip _ _ _ (by norm_num), npClip_le _ _ _⟩,
    finalRow_spending stream n i, ⟨bigStream, 1, 0, Nat.one_pos, ?_⟩⟩
  rw [makeData_getD bigStream 1 0 Nat.one_pos]
  simp only [finalRow, baseRow, addIncomeRelation, addSpendingRelation, npClip,
    normalDraw, bigStream]
  norm_num [min_def, max_def]

theorem c4_witness :
    0 < 1 ∧
    (18 ≤ ((makeData zeroStream 1).getD 0 default).age ∧
      ((makeData zeroStream 1).getD 0 default).age ≤ 70) :=
  ⟨Nat.one_pos, (c4_age_spending_bounds zeroStream 1 0 Nat.one_pos).1⟩

/-- C5: the customer_id column is exactly 1, 2, …, 1000 — it starts at 1 and
increases by exactly 1 on every row, and the adjustment stages leave it
untouched (the equalities are about the final, fully-adjusted dataset). -/
theorem c5_customer_id (stream : ℕ → ℚ) :
    (makeData stream n_samples).map Row.customer_id =
      (List.range n_samples).map (fun i => i + 1) ∧
    (makeData stream n_samples).length = n_samples ∧
    ∀ i : ℕ, i < n_samples →
      ((makeData stream n_samples).getD i default).customer_id = i + 1 := by
  refine ⟨?_, makeData_length _ _, ?_⟩
  · rw [makeData_eq_map, List.map_map]
    rfl
  · intro i hi
    rw [makeData_getD _ _ _ hi]
    exact finalRow_customer_id stream n_samples i

theorem c5_witness :
    999 < n_samples ∧
    ((makeData zeroStream n_samples).getD 999 default).customer_id = 999 + 1 :=
  ⟨by norm_num [n_samples], (c5_customer_id zeroStream).2.2 999 (by norm_num [n_samples])⟩

/-- C10: every row's final income lies in [34400, 206000]: the clipped base
draw is in [20000, 150000] and age is in [18, 70], so the `age * 800`
increment contributes between 14400 and 56000; in particular the final income
can exceed the clipping ceiling 150000. -/
theorem c10_income_range (stream : ℕ → ℚ) (n i : ℕ) (h : i < n) :
    34400 ≤ ((makeData stream n).getD i default).income ∧
    ((makeData stream n).getD i default).income ≤ 206000 ∧
    (∃ stream' : ℕ → ℚ, ∃ n' i' : ℕ, i' < n' ∧
      150000 < ((makeData stream' n').getD i' default).income) := by
  rw [makeData_getD stream n i h]
  have hage1 : (18 : ℚ) ≤ (finalRow stream n i).age := le_npClip _ _ _ (by norm_num)
  have hage2 : (finalRow stream n i).age ≤ 70 := npClip_le _ _ _
  have hbase1 : (20000 : ℚ) ≤
      npClip (normalDraw 50000 15000 (stream (n + i))) 20000 150000 :=
    le_npClip _ _ _ (by norm_num)
  have hbase2 : npClip (normalDraw 50000 15000 (stream (n + i))) 20000 150000 ≤ 150000 :=
    npClip_le _ _ _
  have hinc := finalRow_income stream n i
  refine ⟨by rw [hinc]; linarith, by rw [hinc]; linarith,
    ⟨bigStream, 1, 0, Nat.one_pos, ?_⟩⟩
  rw [makeData_getD bigStream 1 0 Nat.one_pos]
  simp only [finalRow, baseRow, addIncomeRelation, addSpendingRelation, npClip,
    normalDraw, bigStream]
  norm_num [min_def, max_def]

theorem c10_witness :
    0 < 1 ∧ 34400 ≤ ((makeData zeroStream 1).getD 0 default).income :=
  ⟨Nat.one_pos, (c10_income_range zeroStream 1 0 Nat.one_pos).1⟩

lemma getD_map_of_lt {α β : Type} (f : α → β) (l : List α) (d : α) (hd : β) :
    ∀ i : ℕ, i < l.length → (l.map f).getD i hd = f (l.getD i d) := by
  induction l with
  | nil => intro i hi; simp at hi
  | cons x xs ih =>
      intro i hi
      cases i with
      | zero => simp
      | succ n =>
          simp only [List.map_cons, List.getD_cons_succ]
          exact ih n (by simpa using hi)

/-- C3 (code bug evidence): when the `is_premium` partition leaves the premium
group empty, the analyzer does not raise any error — it always returns the
`Except.ok` report, here with NaN mean, NaN t-statistic and NaN p-value, and
in general it has no error path at all. -/
theorem c3_empty_group_no_error :
    (premiumScores [rowNP]).length = 0 ∧
    statistical_analysis (fun q => q) (fun _ _ => 0)
        (fun _ => "m") (fun _ => "m") (fun _ => "m") [rowNP] =
      Except.ok
        ["Statistical Analysis Results",
         "========================================",
         "",
         "Premium customers: 0",
         "Non-premium customers: 1",
         "",
         "Mean spending (premium): $nan",
         "Mean spending (non-premium): $m",
         "",
         "T-test results:",
         "  t-statistic: nan",
         "  p-value: nan",
         "  Significant at p < 0.05: NO"] ∧
    ∀ (sq : ℚ → ℚ) (sf : ℚ → ℕ → ℚ) (f2 f4 f6 : ℚ → String) (rows : List Row),
      ∃ ls : List String, statistical_analysis sq sf f2 f4 f6 rows = Except.ok ls := by
  refine ⟨rfl, rfl, ?_⟩
  intro sq sf f2 f4 f6 rows
  exact ⟨_, rfl⟩

/-- C6: the written CSV has the exact six-name header in schema order, no
index column (each data line is exactly the six cells of its row, joined by
commas), and 1000 data lines; parsing the file back yields the same header
names and the same row count as the in-memory dataset. -/
theorem c6_csv_roundtrip (stream : ℕ → ℚ) (rQ : ℚ → String) :
    (toCsvLines rQ (makeData stream n_samples)).length = n_samples + 1 ∧
    (parseCsv (toCsvLines rQ (makeData stream n_samples))).1 =
      ["customer_id", "age", "income", "spending_score", "region", "is_premium"] ∧
    (parseCsv (toCsvLines rQ (makeData stream n_samples))).1 = columnDtypes.map Prod.fst ∧
    (parseCsv (toCsvLines rQ (makeData stream n_samples))).2.length = n_samples ∧
    (makeData stream n_samples).length = n_samples ∧
    ∀ i : ℕ, i < n_samples →
      (toCsvLines rQ (makeData stream n_samples)).getD (i + 1) "" =
        String.intercalate "," (rowCells rQ ((makeData stream n_samples).getD i default)) ∧
      (rowCells rQ ((makeData stream n_samples).getD i default)).length = 6 := by
  refine ⟨?_, ?_, ?_, ?_, makeData_length _ _, ?_⟩
  · simp [toCsvLines, makeData_length]
  · show parseCsvLine csvHeader =
      ["customer_id", "age", "income", "spending_score", "region", "is_premium"]
    decide
  · show parseCsvLine csvHeader = columnDtypes.map Prod.fst
    decide
  · simp [toCsvLines, parseCsv, makeData_length]
  · intro i hi
    constructor
    · show (csvHeader :: (makeData stream n_samples).map (rowToCsv rQ)).getD (i + 1) "" = _
      rw [List.getD_cons_succ]
      rw [getD_map_of_lt (rowToCsv rQ) (makeData stream n_samples) default "" i
        (by rw [makeData_length]; exact hi)]
      rfl
    · simp [rowCells]

theorem c6_witness :
    0 < n_samples ∧
    (toCsvLines (fun _ => "0") (makeData zeroStream n_samples)).getD (0 + 1) "" =
      String.intercalate ","
        (rowCells (fun _ => "0") ((makeData zeroStream n_samples).getD 0 default)) :=
  ⟨by norm_num [n_samples],
    ((c6_csv_roundtrip zeroStream (fun _ => "0")).2.2.2.2.2 0 (by norm_num [n_samples])).1⟩

/-- C8: the report partitions spending_score by is_premium, and its lines are
exactly: the title, a 40-character rule, the two group sizes, the two group
means with a `$` prefix, the equal-variance (pooled) t-statistic, the p-value
obtained from the t-distribution tail at `n1 + n2 - 2` degrees of freedom,
and a verdict line that reads YES precisely when the p-value is strictly
below 0.05.  The fixed-precision renderings of the four statistics are the
abstract parameters `fmt2`, `fmt4`, `fmt6`. -/
theorem c8_statistical_report (sqrtQ : ℚ → ℚ) (sf : ℚ → ℕ → ℚ)
    (fmt2 fmt4 fmt6 : ℚ → String) (rows : List Row)
    (h1 : 2 ≤ (premiumScores rows).length) (h2 : 2 ≤ (nonPremiumScores rows).length) :
    statistical_analysis sqrtQ sf fmt2 fmt4 fmt6 rows =
      Except.ok
        ["Statistical Analysis Results",
         "========================================",
         "",
         "Premium customers: " ++ toString (premiumScores rows).length,
         "Non-premium customers: " ++ toString (nonPremiumScores rows).length,
         "",
         "Mean spending (premium): $" ++ fmt2 (meanQ (premiumScores rows)),
         "Mean spending (non-premium): $" ++ fmt2 (meanQ (nonPremiumScores rows)),
         "",
         "T-test results:",
         "  t-statistic: " ++ fmt4 (tStat sqrtQ (premiumScores rows) (nonPremiumScores rows)),
         "  p-value: " ++ fmt6 (sf (tStat sqrtQ (premiumScores rows) (nonPremiumScores rows))
           ((premiumScores rows).length + (nonPremiumScores rows).length - 2)),
         "  Significant at p < 0.05: " ++
           (if sf (tStat sqrtQ (premiumScores rows) (nonPremiumScores rows))
               ((premiumScores rows).length + (nonPremiumScores rows).length - 2) < 1/20
            then "YES" else "NO")] ∧
    (∀ p : ℚ, verdict (RVal.val p) = "YES" ↔ p < 1/20) := by
  have hg : ¬((premiumScores rows).length ≤ 1 ∨ (nonPremiumScores rows).length ≤ 1) := by
    omega
  have hp0 : ¬((premiumScores rows).length = 0) := by omega
  have hq0 : ¬((nonPremiumScores rows).length = 0) := by omega
  constructor
  · unfold statistical_analysis ttest_ind meanR
    rw [if_neg hg, if_neg hp0, if_neg hq0]
    rfl
  · intro p
    show (if p < 1/20 then "YES" else "NO") = "YES" ↔ p < 1/20
    split_ifs with hp
    · exact iff_of_true rfl hp
    · exact iff_of_false (by decide) hp

theorem c8_witness :
    2 ≤ (premiumScores rows4).length ∧ 2 ≤ (nonPremiumScores rows4).length ∧
    (verdict (RVal.val 0) = "YES" ↔ (0 : ℚ) < 1/20) :=
  ⟨by decide, by decide,
    (c8_statistical_report (fun q => q) (fun _ _ => 0) (fun _ => "a") (fun _ => "b")
      (fun _ => "c") rows4 (by decide) (by decide)).2 0⟩

/-- C9: the numeric columns selected by `select_dtypes(include=[np.number])`
— and hence used by both `describe()` and the correlation heatmap — are
exactly customer_id, age, income, spending_score and is_premium: the
identifier and the 0/1 flag are included, the categorical region column is
excluded, and the correlation matrix is 5×5. -/
theorem c9_numeric_columns (rows : List Row) :
    numericColumnNames =
      ["customer_id", "age", "income", "spending_score", "is_premium"] ∧
    describeColumns = numericColumnNames ∧
    numericColumnNames.length = 5 ∧
    numericColumnNames.contains "region" = false ∧
    (numericCols rows).length = 5 ∧
    columnDtypes.map Prod.fst =
      ["customer_id", "age", "income", "spending_score", "region", "is_premium"] :=
  ⟨by decide, rfl, by decide, by decide, by simp [numericCols], by decide⟩

lemma zip_sub_mul_comm (a b : ℚ) :
    ∀ xs ys : List ℚ,
      ((xs.zip ys).map (fun p => (p.1 - a) * (p.2 - b))).sum =
        ((ys.zip xs).map (fun p => (p.1 - b) * (p.2 - a))).sum := by
  intro xs
  induction xs with
  | nil => intro ys; cases ys <;> simp
  | cons x xs ih =>
      intro ys
      cases ys with
      | nil => simp
      | cons y ys => simp [ih ys, mul_comm]

lemma zip_self_map (xs : List ℚ) (f : ℚ × ℚ → ℚ) :
    (xs.zip xs).map f = xs.map (fun x => f (x, x)) := by
  induction xs with
  | nil => simp
  | cons x xs ih => simp [ih]

lemma covQ_comm (xs ys : List ℚ) (h : xs.length = ys.length) :
    covQ xs ys = covQ ys xs := by
  unfold covQ
  rw [zip_sub_mul_comm (meanQ xs) (meanQ ys) xs ys, h]

lemma covQ_self (xs : List ℚ) : covQ xs xs = varQ xs := by
  unfold covQ varQ
  rw [zip_self_map]

lemma pearson_comm (xs ys : List ℚ) (h : xs.length = ys.length) :
    pearson xs ys = pearson ys xs := by
  unfold pearson
  rw [covQ_comm xs ys h, mul_comm]

lemma pearson_self (xs : List ℚ) (hv : 0 < varQ xs) : pearson xs xs = 1 := by
  unfold pearson
  rw [covQ_self]
  rw [Real.mul_self_sqrt (by exact_mod_cast hv.le)]
  exact div_self (by exact_mod_cast hv.ne')

lemma numericCols_getD_length (rows : List Row) (i : ℕ) (hi : i < 5) :
    ((numericCols rows).getD i []).length = rows.length := by
  interval_cases i <;> simp [numericCols]

/-- C7: the heatmap's Pearson correlation matrix over the five numeric
columns is symmetric, and each diagonal entry equals 1 (provided the column
has nonzero sample variance, since the entry is `cov/(sigma*sigma)`). -/
theorem c7_corr_matrix_symm_diag (rows : List Row) (i j : ℕ) (hi : i < 5) (hj : j < 5) :
    corr_matrix rows i j = corr_matrix rows j i ∧
    (0 < varQ ((numericCols rows).getD i []) → corr_matrix rows i i = 1) := by
  constructor
  · exact pearson_comm _ _ (by
      rw [numericCols_getD_length rows i hi, numericCols_getD_length rows j hj])
  · intro hv
    exact pearson_self _ hv

theorem c7_witness :
    0 < varQ ((numericCols rows3).getD 0 []) ∧ corr_matrix rows3 0 0 = 1 := by
  have hv : 0 < varQ ((numericCols rows3).getD 0 []) := by
    norm_num [varQ, meanQ, numericCols, rows3]
  exact ⟨hv, (c7_corr_matrix_symm_diag rows3 0 0 (by norm_num) (by norm_num)).2 hv⟩

end AnalyzeData
